import Mathlib

/-!
Shallow embedding of the cfdns dynamic-DNS synchronization utility
(src/main.rs).  HTTP transport is abstracted away: every function that in
the source performs a request is modelled as a pure function of the
response body it would receive.  JSON is modelled by an explicit tree
type, and the serde-derived serialization of the record model is embedded
as explicit encode/decode functions following the derive attributes
(field renames, optional fields absent-or-null mapping to none).
-/

/-- JSON values, the wire format of the provider API. -/
inductive Json where
  | null : Json
  | bool (b : Bool) : Json
  | num (n : Int) : Json
  | str (s : String) : Json
  | arr (xs : List Json) : Json
  | obj (kvs : List (String × Json)) : Json
deriving Repr

/-- Meta — provenance flags of a record (struct Meta in main.rs). -/
structure Meta where
  auto_added : Bool
  managed_by_apps : Bool
  managed_by_argo_tunnel : Bool
  source : String
  email_routing : Option Bool
  read_only : Option Bool
deriving Repr

/-- ResultInfo — pagination metadata (struct ResultInfo in main.rs). -/
structure ResultInfo where
  page : Int
  per_page : Int
  count : Int
  total_count : Int
  total_pages : Int
deriving Repr

/-- Record — one DNS resource record (struct Record in main.rs).
`type_field` is serialized as key "type", `ip_addr` as key "content". -/
structure Record where
  id : String
  zone_id : String
  zone_name : String
  name : String
  type_field : String
  ip_addr : String
  proxiable : Bool
  proxied : Bool
  ttl : Int
  locked : Bool
  meta : Meta
  comment : Option String
  tags : List Json
  created_on : String
  modified_on : String
  priority : Option Int
deriving Repr

/-- Response — the provider list-records envelope (struct Response). -/
structure Response where
  records : List Record
  success : Bool
  errors : List Json
  messages : List Json
  result_info : ResultInfo
deriving Repr

/-- `records.iter().find(|record| record.name == *record_name && record.type_field == "A")` -/
def find_subdomain_record (records : List Record) (record_name : String) : Option Record :=
  records.find? fun record => decide (record.name = record_name ∧ record.type_field = "A")

/-- The body returned by `get_current_ip_addr`: the source returns the
response text of the IP-lookup endpoint unchanged (`.text()`, no trim). -/
def get_current_ip_addr (body : String) : String :=
  body

/-- Prefix test on character lists. -/
def prefOf : List Char → List Char → Bool
  | [], _ => true
  | _ :: _, [] => false
  | a :: as, b :: bs => a == b && prefOf as bs

/-- Occurrence test: does `pat` occur contiguously inside `l`? -/
def occursIn (pat : List Char) : List Char → Bool
  | [] => prefOf pat []
  | b :: bs => prefOf pat (b :: bs) || occursIn pat bs

/-- Rust `str::contains` with a string pattern: substring containment. -/
def str_contains (s pat : String) : Bool :=
  occursIn pat.toList s.toList

/-- The literal success marker tested in update_record:
`response.contains("success\":true")`. -/
def success_marker : String := "success\":true"

/-- Classification of an update-response body in update_record:
success iff the raw body contains the literal marker. -/
def update_classify (response : String) : Bool :=
  str_contains response success_marker

/-- The record update_record serializes as the PUT body: a clone of
`record` with `ip_addr` (wire key "content") replaced by `current_ip`. -/
def update_record_payload (current_ip : String) (record : Record) : Record :=
  { record with ip_addr := current_ip }

/-- update_record, abstracted over the HTTP round trip: returns the PUT
payload it serializes and the success classification of the response. -/
def update_record (current_ip : String) (record : Record) (response : String) :
    Record × Bool :=
  (update_record_payload current_ip record, update_classify response)

/-- Observable outcome of one run of main past the records fetch. -/
inductive RunOutcome where
  | decodeError : RunOutcome
  | noRecordWarning : RunOutcome
  | inSync : RunOutcome
  | updateInvoked (payload : Record) (success : Bool) : RunOutcome
deriving Repr

/-- The reconciliation match in main: on a matched record, the updater is
invoked when `current_ip == record.ip_addr`; on inequality an "in sync"
message is logged; with no match a warning is logged. -/
def reconcile (current_ip : String) (matched : Option Record)
    (update_response : String) : RunOutcome :=
  match matched with
  | some record =>
    if current_ip = record.ip_addr then
      RunOutcome.updateInvoked (update_record current_ip record update_response).1
        (update_record current_ip record update_response).2
    else
      RunOutcome.inSync
  | none => RunOutcome.noRecordWarning

/-- First binding of a key in a JSON object, as serde field lookup. -/
def lookupField : List (String × Json) → String → Option Json
  | [], _ => none
  | (k2, v) :: rest, k => if k2 = k then some v else lookupField rest k

/-- Expect a JSON string. -/
def jStr : Json → Option String
  | Json.str s => some s
  | _ => none

/-- Expect a JSON boolean. -/
def jBool : Json → Option Bool
  | Json.bool b => some b
  | _ => none

/-- Expect a JSON number (i64 in the source). -/
def jInt : Json → Option Int
  | Json.num n => some n
  | _ => none

/-- Expect a JSON array. -/
def jArr : Json → Option (List Json)
  | Json.arr xs => some xs
  | _ => none

/-- Decode an optional string field: absent or null becomes none,
a string becomes some, any other shape is a decode error. -/
def optStrField (kvs : List (String × Json)) (k : String) : Option (Option String) :=
  match lookupField kvs k with
  | none => some none
  | some Json.null => some none
  | some (Json.str s) => some (some s)
  | some _ => none

/-- Decode an optional integer field (same absent/null convention). -/
def optIntField (kvs : List (String × Json)) (k : String) : Option (Option Int) :=
  match lookupField kvs k with
  | none => some none
  | some Json.null => some none
  | some (Json.num n) => some (some n)
  | some _ => none

/-- Decode an optional boolean field (same absent/null convention). -/
def optBoolField (kvs : List (String × Json)) (k : String) : Option (Option Bool) :=
  match lookupField kvs k with
  | none => some none
  | some Json.null => some none
  | some (Json.bool b) => some (some b)
  | some _ => none

/-- Deserialize Meta from its wire object. -/
def decodeMeta : Json → Option Meta
  | Json.obj kvs => do
    let auto_added ← (lookupField kvs "auto_added").bind jBool
    let managed_by_apps ← (lookupField kvs "managed_by_apps").bind jBool
    let managed_by_argo_tunnel ← (lookupField kvs "managed_by_argo_tunnel").bind jBool
    let source ← (lookupField kvs "source").bind jStr
    let email_routing ← optBoolField kvs "email_routing"
    let read_only ← optBoolField kvs "read_only"
    some { auto_added, managed_by_apps, managed_by_argo_tunnel, source,
           email_routing, read_only }
  | _ => none

/-- Deserialize the first half of a Record wire object (serde keys). -/
def decodeRecordIds (kvs : List (String × Json)) :
    Option (String × String × String × String × String × String) := do
  let id ← (lookupField kvs "id").bind jStr
  let zone_id ← (lookupField kvs "zone_id").bind jStr
  let zone_name ← (lookupField kvs "zone_name").bind jStr
  let name ← (lookupField kvs "name").bind jStr
  let type_field ← (lookupField kvs "type").bind jStr
  let ip_addr ← (lookupField kvs "content").bind jStr
  some (id, zone_id, zone_name, name, type_field, ip_addr)

/-- Deserialize the flag and metadata fields of a Record wire object. -/
def decodeRecordFlags (kvs : List (String × Json)) :
    Option (Bool × Bool × Int × Bool × Meta) := do
  let proxiable ← (lookupField kvs "proxiable").bind jBool
  let proxied ← (lookupField kvs "proxied").bind jBool
  let ttl ← (lookupField kvs "ttl").bind jInt
  let locked ← (lookupField kvs "locked").bind jBool
  let meta ← (lookupField kvs "meta").bind decodeMeta
  some (proxiable, proxied, ttl, locked, meta)

/-- Deserialize the trailing fields of a Record wire object. -/
def decodeRecordTail (kvs : List (String × Json)) :
    Option (Option String × List Json × String × String × Option Int) := do
  let comment ← optStrField kvs "comment"
  let tags ← (lookupField kvs "tags").bind jArr
  let created_on ← (lookupField kvs "created_on").bind jStr
  let modified_on ← (lookupField kvs "modified_on").bind jStr
  let priority ← optIntField kvs "priority"
  some (comment, tags, created_on, modified_on, priority)

/-- Deserialize Record from its wire object (serde field keys). -/
def decodeRecord : Json → Option Record
  | Json.obj kvs => do
    let (id, zone_id, zone_name, name, type_field, ip_addr) ← decodeRecordIds kvs
    let (proxiable, proxied, ttl, locked, meta) ← decodeRecordFlags kvs
    let (comment, tags, created_on, modified_on, priority) ← decodeRecordTail kvs
    some { id, zone_id, zone_name, name, type_field, ip_addr, proxiable,
           proxied, ttl, locked, meta, comment, tags, created_on,
           modified_on, priority }
  | _ => none

/-- Deserialize ResultInfo from its wire object. -/
def decodeResultInfo : Json → Option ResultInfo
  | Json.obj kvs => do
    let page ← (lookupField kvs "page").bind jInt
    let per_page ← (lookupField kvs "per_page").bind jInt
    let count ← (lookupField kvs "count").bind jInt
    let total_count ← (lookupField kvs "total_count").bind jInt
    let total_pages ← (lookupField kvs "total_pages").bind jInt
    some { page, per_page, count, total_count, total_pages }
  | _ => none

/-- Deserialize a list of records elementwise. -/
def decodeRecords : List Json → Option (List Record)
  | [] => some []
  | j :: rest => do
    let r ← decodeRecord j
    let rs ← decodeRecords rest
    some (r :: rs)

/-- Deserialize the list-records envelope ("result" holds the records). -/
def decodeResponse : Json → Option Response
  | Json.obj kvs => do
    let resultArr ← (lookupField kvs "result").bind jArr
    let records ← decodeRecords resultArr
    let success ← (lookupField kvs "success").bind jBool
    let errors ← (lookupField kvs "errors").bind jArr
    let messages ← (lookupField kvs "messages").bind jArr
    let result_info ← (lookupField kvs "result_info").bind decodeResultInfo
    some { records, success, errors, messages, result_info }
  | _ => none

/-- Serialize an optional string (serde: none becomes null). -/
def encodeOptStr : Option String → Json
  | none => Json.null
  | some s => Json.str s

/-- Serialize an optional integer. -/
def encodeOptInt : Option Int → Json
  | none => Json.null
  | some n => Json.num n

/-- Serialize an optional boolean. -/
def encodeOptBool : Option Bool → Json
  | none => Json.null
  | some b => Json.bool b

/-- Serialize Meta to its wire object. -/
def encodeMeta (m : Meta) : Json :=
  Json.obj [("auto_added", Json.bool m.auto_added),
            ("managed_by_apps", Json.bool m.managed_by_apps),
            ("managed_by_argo_tunnel", Json.bool m.managed_by_argo_tunnel),
            ("source", Json.str m.source),
            ("email_routing", encodeOptBool m.email_routing),
            ("read_only", encodeOptBool m.read_only)]

/-- Serialize Record to its wire object, the update JSON shape the PUT
body carries (serde field keys and order). -/
def encodeRecord (r : Record) : Json :=
  Json.obj [("id", Json.str r.id),
            ("zone_id", Json.str r.zone_id),
            ("zone_name", Json.str r.zone_name),
            ("name", Json.str r.name),
            ("type", Json.str r.type_field),
            ("content", Json.str r.ip_addr),
            ("proxiable", Json.bool r.proxiable),
            ("proxied", Json.bool r.proxied),
            ("ttl", Json.num r.ttl),
            ("locked", Json.bool r.locked),
            ("meta", encodeMeta r.meta),
            ("comment", encodeOptStr r.comment),
            ("tags", Json.arr r.tags),
            ("created_on", Json.str r.created_on),
            ("modified_on", Json.str r.modified_on),
            ("priority", encodeOptInt r.priority)]

/-- Serialize Meta, omitting the optional fields selected by the flags
(models a wire object in which those fields are absent). -/
def encodeMetaOmitting (omitE omitR : Bool) (m : Meta) : Json :=
  Json.obj ([("auto_added", Json.bool m.auto_added),
             ("managed_by_apps", Json.bool m.managed_by_apps),
             ("managed_by_argo_tunnel", Json.bool m.managed_by_argo_tunnel),
             ("source", Json.str m.source)] ++
            (if omitE then [] else [("email_routing", encodeOptBool m.email_routing)]) ++
            (if omitR then [] else [("read_only", encodeOptBool m.read_only)]))

/-- Serialize Record, omitting any chosen subset of the optional fields
comment, priority, meta.email_routing, meta.read_only. -/
def encodeRecordOmitting (omitC omitP omitE omitR : Bool) (r : Record) : Json :=
  Json.obj ([("id", Json.str r.id),
             ("zone_id", Json.str r.zone_id),
             ("zone_name", Json.str r.zone_name),
             ("name", Json.str r.name),
             ("type", Json.str r.type_field),
             ("content", Json.str r.ip_addr),
             ("proxiable", Json.bool r.proxiable),
             ("proxied", Json.bool r.proxied),
             ("ttl", Json.num r.ttl),
             ("locked", Json.bool r.locked),
             ("meta", encodeMetaOmitting omitE omitR r.meta)] ++
            (if omitC then [] else [("comment", encodeOptStr r.comment)]) ++
            [("tags", Json.arr r.tags),
             ("created_on", Json.str r.created_on),
             ("modified_on", Json.str r.modified_on)] ++
            (if omitP then [] else [("priority", encodeOptInt r.priority)]))

/-- One run of main after argument checking: parse and decode the records
response (none models a body that is not valid JSON), then match, then
reconcile against the freshly resolved IP.  A decode failure aborts the
run (`.expect` panics) before the reconciliation decision. -/
def runMain (recordsBody : Option Json) (ipBody : String) (name : String)
    (update_response : String) : RunOutcome :=
  match recordsBody.bind decodeResponse with
  | none => RunOutcome.decodeError
  | some res =>
    reconcile (get_current_ip_addr ipBody)
      (find_subdomain_record res.records name) update_response

/-- Serialize ResultInfo to its wire object. -/
def encodeResultInfo (ri : ResultInfo) : Json :=
  Json.obj [("page", Json.num ri.page),
            ("per_page", Json.num ri.per_page),
            ("count", Json.num ri.count),
            ("total_count", Json.num ri.total_count),
            ("total_pages", Json.num ri.total_pages)]

/-- Serialize the list-records envelope to its wire object. -/
def encodeResponse (res : Response) : Json :=
  Json.obj [("result", Json.arr (res.records.map encodeRecord)),
            ("success", Json.bool res.success),
            ("errors", Json.arr res.errors),
            ("messages", Json.arr res.messages),
            ("result_info", encodeResultInfo res.result_info)]

/-- A concrete Meta value used to instantiate theorems. -/
def sampleMeta : Meta :=
  { auto_added := false, managed_by_apps := false, managed_by_argo_tunnel := false,
    source := "primary", email_routing := none, read_only := some false }

/-- A concrete A record used to instantiate theorems. -/
def sampleRecord : Record :=
  { id := "r1", zone_id := "z1", zone_name := "example.com",
    name := "home.example.com", type_field := "A", ip_addr := "1.2.3.4",
    proxiable := true, proxied := false, ttl := 300, locked := false,
    meta := sampleMeta, comment := none, tags := [],
    created_on := "2020-01-01", modified_on := "2021-01-01", priority := none }

/-- A concrete pagination block used to instantiate theorems. -/
def sampleResultInfo : ResultInfo :=
  { page := 1, per_page := 20, count := 1, total_count := 1, total_pages := 1 }

/-- A concrete list-records envelope holding just sampleRecord. -/
def sampleResponse : Response :=
  { records := [sampleRecord], success := true, errors := [], messages := [],
    result_info := sampleResultInfo }

/-- The wire body of sampleResponse. -/
def sampleBody : Json := encodeResponse sampleResponse

/-- Claim C1: the reconciliation step invokes the record updater iff a
matching record was found and the freshly resolved IP is string-equal to
the record's stored content; with no record it only warns; with a record
whose stored IP differs it only logs the in-sync message (the as-observed,
possibly inverted condition). -/
theorem reconcile_decision (ip : String) (matched : Option Record) (resp : String) :
    ((∃ p s, reconcile ip matched resp = RunOutcome.updateInvoked p s) ↔
      ∃ rec, matched = some rec ∧ ip = rec.ip_addr) ∧
    (reconcile ip matched resp = RunOutcome.noRecordWarning ↔ matched = none) ∧
    (reconcile ip matched resp = RunOutcome.inSync ↔
      ∃ rec, matched = some rec ∧ ip ≠ rec.ip_addr) := by
  cases matched with
  | none => simp [reconcile]
  | some rec =>
    by_cases h : ip = rec.ip_addr <;> simp [reconcile, h]

/-- Claim C3 counterexample: the IP resolver does not trim the response
body; on a body with a trailing newline the returned string still ends in
a whitespace character, refuting that the result never carries
surrounding whitespace. -/
theorem get_current_ip_addr_trim_counterexample :
    (get_current_ip_addr "1.2.3.4\n").toList.getLast? = some '\n' ∧
      Char.isWhitespace '\n' = true := by
  decide

/-- Claim C3 (amended): the IP resolver returns the response body of the
lookup endpoint unchanged — no trimming of surrounding whitespace is
performed. -/
theorem get_current_ip_addr_id (body : String) :
    get_current_ip_addr body = body := rfl

/-- Claim C4: the record update_record serializes as the PUT body has its
content (ip_addr) field equal to the fresh IP and every other field
unchanged from the input record. -/
theorem update_record_payload_frame (p : String) (r : Record) (resp : String) :
    (update_record p r resp).1.ip_addr = p ∧
    (update_record p r resp).1.id = r.id ∧
    (update_record p r resp).1.zone_id = r.zone_id ∧
    (update_record p r resp).1.zone_name = r.zone_name ∧
    (update_record p r resp).1.name = r.name ∧
    (update_record p r resp).1.type_field = r.type_field ∧
    (update_record p r resp).1.proxiable = r.proxiable ∧
    (update_record p r resp).1.proxied = r.proxied ∧
    (update_record p r resp).1.ttl = r.ttl ∧
    (update_record p r resp).1.locked = r.locked ∧
    (update_record p r resp).1.meta = r.meta ∧
    (update_record p r resp).1.comment = r.comment ∧
    (update_record p r resp).1.tags = r.tags ∧
    (update_record p r resp).1.created_on = r.created_on ∧
    (update_record p r resp).1.modified_on = r.modified_on ∧
    (update_record p r resp).1.priority = r.priority :=
  ⟨rfl, rfl, rfl, rfl, rfl, rfl, rfl, rfl, rfl, rfl, rfl, rfl, rfl, rfl, rfl, rfl⟩

/-- Claim C8: when the records response body does not decode to the
expected envelope, the run aborts with the decode error and the updater is
never invoked. -/
theorem runMain_decode_error (body : Option Json) (ip n resp : String)
    (h : body.bind decodeResponse = none) :
    runMain body ip n resp = RunOutcome.decodeError ∧
      ∀ p s, runMain body ip n resp ≠ RunOutcome.updateInvoked p s := by
  refine ⟨by simp [runMain, h], ?_⟩
  intro p s
  simp [runMain, h]

/-- Witness for C8 at a concrete non-envelope body. -/
theorem runMain_decode_error_witness :
    runMain (some (Json.str "nonsense")) "1.2.3.4" "home.example.com" "resp" =
        RunOutcome.decodeError ∧
      ∀ p s, runMain (some (Json.str "nonsense")) "1.2.3.4" "home.example.com" "resp" ≠
        RunOutcome.updateInvoked p s :=
  runMain_decode_error (some (Json.str "nonsense")) "1.2.3.4" "home.example.com" "resp" rfl

/-- Claim C10: a response body that contains the spaced variant of the
success marker but not the exact unspaced substring is classified as a
failure by update_record. -/
theorem update_classify_spaced_variant (body : String)
    (hspaced : str_contains body "success\": true" = true)
    (hunspaced : str_contains body success_marker = false) :
    update_classify body = false := by
  simpa [update_classify] using hunspaced

/-- Witness for C10 at a concrete pretty-printed success body. -/
theorem update_classify_spaced_variant_witness :
    str_contains "\x7b\"success\": true\x7d" "success\": true" = true ∧
    str_contains "\x7b\"success\": true\x7d" success_marker = false ∧
    update_classify "\x7b\"success\": true\x7d" = false :=
  ⟨by decide, by decide,
    update_classify_spaced_variant "\x7b\"success\": true\x7d" (by decide) (by decide)⟩

/-- Claim C9: whenever the main flow invokes update_record, the fresh IP
equals the matched record's stored content, so the PUT payload is
field-for-field equal to the matched record itself. -/
theorem runMain_update_payload_is_matched (body : Option Json) (ip n resp : String)
    (p : Record) (s : Bool)
    (h : runMain body ip n resp = RunOutcome.updateInvoked p s) :
    ∃ res rec, body.bind decodeResponse = some res ∧
      find_subdomain_record res.records n = some rec ∧
      get_current_ip_addr ip = rec.ip_addr ∧ p = rec := by
  cases hb : body.bind decodeResponse with
  | none =>
    simp [runMain, hb] at h
  | some res =>
    simp only [runMain, hb] at h
    refine ⟨res, ?_⟩
    cases hf : find_subdomain_record res.records n with
    | none => simp [reconcile, hf] at h
    | some rec =>
      simp only [reconcile, hf] at h
      by_cases he : get_current_ip_addr ip = rec.ip_addr
      · rw [if_pos he] at h
        injection h with h1 h2
        refine ⟨rec, rfl, rfl, he, ?_⟩
        rw [← h1]
        show ({ rec with ip_addr := get_current_ip_addr ip } : Record) = rec
        rw [he]
      · rw [if_neg he] at h
        exact RunOutcome.noConfusion h

/-- Witness for C9 at a concrete decodable body whose single record's
stored content equals the fresh IP. -/
theorem runMain_update_payload_is_matched_witness :
    ∃ res rec, (some sampleBody).bind decodeResponse = some res ∧
      find_subdomain_record res.records "home.example.com" = some rec ∧
      get_current_ip_addr "1.2.3.4" = rec.ip_addr ∧ sampleRecord = rec :=
  runMain_update_payload_is_matched (some sampleBody) "1.2.3.4" "home.example.com"
    "resp" sampleRecord false rfl

/-- Claim C2: find_subdomain_record returns the first record, in sequence
order, whose name equals the target exactly and whose type is "A"; it
returns none when no record qualifies, and in particular on the empty
list; a returned record is a member at a position with no earlier
qualifying element. -/
theorem find_subdomain_record_spec (records : List Record) (n : String) :
    (find_subdomain_record ([] : List Record) n = none) ∧
    (find_subdomain_record records n = none ↔
      ∀ r ∈ records, ¬(r.name = n ∧ r.type_field = "A")) ∧
    (∀ r, find_subdomain_record records n = some r →
      r.name = n ∧ r.type_field = "A" ∧
      ∃ i, ∃ hi : i < records.length, records.get ⟨i, hi⟩ = r ∧
        ∀ j (hj : j < records.length), j < i →
          ¬((records.get ⟨j, hj⟩).name = n ∧
            (records.get ⟨j, hj⟩).type_field = "A")) := by
  refine ⟨rfl, ?_, ?_⟩
  · simp [find_subdomain_record, List.find?_eq_none]
  · intro r
    induction records with
    | nil => intro h; exact Option.noConfusion h
    | cons a as ih =>
      intro h
      simp only [find_subdomain_record] at h ih
      by_cases hq : a.name = n ∧ a.type_field = "A"
      · rw [List.find?_cons_of_pos _ (by simpa using hq)] at h
        obtain rfl : a = r := Option.some.inj h
        refine ⟨hq.1, hq.2, 0, Nat.succ_pos _, rfl, ?_⟩
        intro j hj hji
        exact absurd hji (Nat.not_lt_zero j)
      · rw [List.find?_cons_of_neg _ (by simpa using hq)] at h
        obtain ⟨h1, h2, i, hi, hget, hfirst⟩ := ih h
        refine ⟨h1, h2, i + 1, Nat.succ_lt_succ hi, hget, ?_⟩
        intro j hj hji
        cases j with
        | zero => simpa using hq
        | succ j2 =>
          exact hfirst j2 (Nat.lt_of_succ_lt_succ hj) (Nat.lt_of_succ_lt_succ hji)

/-- Witness for C2 at a concrete one-record list. -/
theorem find_subdomain_record_spec_witness :
    sampleRecord.name = "home.example.com" ∧ sampleRecord.type_field = "A" ∧
    ∃ i, ∃ hi : i < [sampleRecord].length, [sampleRecord].get ⟨i, hi⟩ = sampleRecord ∧
      ∀ j (hj : j < [sampleRecord].length), j < i →
        ¬(([sampleRecord].get ⟨j, hj⟩).name = "home.example.com" ∧
          ([sampleRecord].get ⟨j, hj⟩).type_field = "A") :=
  (find_subdomain_record_spec [sampleRecord] "home.example.com").2.2 sampleRecord rfl

/-- prefOf decides the prefix relation on character lists. -/
theorem prefOf_iff (pat : List Char) : ∀ l : List Char,
    prefOf pat l = true ↔ ∃ t, l = pat ++ t := by
  induction pat with
  | nil =>
    intro l
    simp [prefOf]
  | cons a as ih =>
    intro l
    cases l with
    | nil =>
      simp [prefOf]
    | cons b bs =>
      rw [prefOf, Bool.and_eq_true, beq_iff_eq, ih bs]
      constructor
      · rintro ⟨rfl, t, rfl⟩
        exact ⟨t, rfl⟩
      · rintro ⟨t, ht⟩
        obtain ⟨rfl, rfl⟩ : b = a ∧ bs = as ++ t := by
          refine ⟨?_, ?_⟩ <;> injection ht with h1 h2
        exact ⟨rfl, t, rfl⟩

/-- occursIn decides contiguous containment on character lists. -/
theorem occursIn_iff (pat : List Char) : ∀ l : List Char,
    occursIn pat l = true ↔ ∃ l1 l2, l = l1 ++ pat ++ l2 := by
  intro l
  induction l with
  | nil =>
    rw [occursIn, prefOf_iff]
    constructor
    · rintro ⟨t, ht⟩
      exact ⟨[], t, ht⟩
    · rintro ⟨l1, l2, h⟩
      obtain ⟨h1, h2⟩ := List.append_eq_nil.mp h.symm
      obtain ⟨h3, h4⟩ := List.append_eq_nil.mp h1
      exact ⟨[], by simp [h4]⟩
  | cons b bs ih =>
    rw [occursIn, Bool.or_eq_true, prefOf_iff, ih]
    constructor
    · rintro (⟨t, ht⟩ | ⟨l1, l2, hl⟩)
      · exact ⟨[], t, by simpa using ht⟩
      · exact ⟨b :: l1, l2, by simp [hl]⟩
    · rintro ⟨l1, l2, hl⟩
      cases l1 with
      | nil =>
        exact Or.inl ⟨l2, by simpa using hl⟩
      | cons c l1t =>
        right
        refine ⟨l1t, l2, ?_⟩
        injection hl with h1 h2

/-- Claim C5: update_record classifies an update-response body as
successful iff the raw body contains the literal success marker as a
contiguous substring — a pure string-containment check. -/
theorem update_classify_iff_contains (body : String) :
    update_classify body = true ↔
      ∃ l1 l2, body.toList = l1 ++ success_marker.toList ++ l2 := by
  rw [update_classify, str_contains]
  exact occursIn_iff success_marker.toList body.toList

/-- Claim C6: serializing a record to the update JSON shape and decoding
that JSON back through the fetch-records record shape is the identity on
every field. -/
theorem decode_encode_record (r : Record) :
    decodeRecord (encodeRecord r) = some r := by
  obtain ⟨id, zone_id, zone_name, name, type_field, ip_addr, proxiable, proxied,
    ttl, locked, meta, comment, tags, created_on, modified_on, priority⟩ := r
  obtain ⟨aa, ma, mat, src, er, ro⟩ := meta
  cases comment <;> cases priority <;> cases er <;> cases ro <;> rfl

/-- Decoding a Meta wire object from which any subset of the optional
fields is absent succeeds, mapping each absent field to none. -/
theorem decode_encode_meta_omitting (omitE omitR : Bool) (m : Meta) :
    decodeMeta (encodeMetaOmitting omitE omitR m) =
      some { m with
        email_routing := if omitE then none else m.email_routing,
        read_only := if omitR then none else m.read_only } := by
  obtain ⟨aa, ma, mat, src, er, ro⟩ := m
  cases omitE <;> cases omitR <;> cases er <;> cases ro <;> rfl

/-- Claim C7: decoding a record wire object from which any subset of the
optional fields (comment, priority, meta email_routing, meta read_only)
is absent still succeeds, mapping each absent optional field to none and
leaving every other field intact. -/
theorem decode_record_absent_optionals (omitC omitP omitE omitR : Bool) (r : Record) :
    decodeRecord (encodeRecordOmitting omitC omitP omitE omitR r) =
      some { r with
        comment := if omitC then none else r.comment,
        priority := if omitP then none else r.priority,
        meta := { r.meta with
          email_routing := if omitE then none else r.meta.email_routing,
          read_only := if omitR then none else r.meta.read_only } } := by
  obtain ⟨id, zone_id, zone_name, name, type_field, ip_addr, proxiable, proxied,
    ttl, locked, meta, comment, tags, created_on, modified_on, priority⟩ := r
  cases omitC <;> cases omitP <;> cases comment <;> cases priority <;>
    simp [decodeRecord, decodeRecordIds, decodeRecordFlags, decodeRecordTail,
      encodeRecordOmitting, decode_encode_meta_omitting,
      lookupField, optStrField, optIntField, jStr, jBool, jInt, jArr,
      encodeOptStr, encodeOptInt]
